import Mathlib

/-!
Verification development for the compliance assistant client
(`src/unnamed/part_001` and the proxy variants). JavaScript strings are
modelled as `List Char`; the functions below are direct translations of
the corresponding JS functions, keeping their names.
-/

set_option maxHeartbeats 1000000
set_option maxRecDepth 100000
set_option linter.unusedVariables false

/-! ## Definitions: shallow embedding of the source functions -/

/-- JS strings are modelled as lists of characters. -/
abbrev Str := List Char

/-- Convert a Lean string literal to the model type. -/
def lit (s : String) : Str := s.toList

/-- ECMAScript `String.prototype.trim` whitespace class
(WhiteSpace together with LineTerminator). -/
def jsIsWs (c : Char) : Bool :=
  c = ' ' || c = '\t' || c = '\n' || c = '\r' || c = '\u000b' || c = '\u000c' ||
  c = ' ' || c = ' ' || (' ' ≤ c && c ≤ ' ') ||
  c = ' ' || c = ' ' || c = ' ' || c = ' ' ||
  c = '　' || c = '﻿'

/-- JS `s.trim()`. -/
def jsTrim (s : Str) : Str :=
  ((s.dropWhile jsIsWs).reverse.dropWhile jsIsWs).reverse

/-- JS `s.toLowerCase()` (ASCII letters; the code only compares ASCII text). -/
def lowerStr (s : Str) : Str := s.map Char.toLower

/-- Join a list of strings with a separator (JS `Array.prototype.join`). -/
def joinWith (sep : Str) (xs : List Str) : Str := List.intercalate sep xs

/-- JS `out.join("\n")`. -/
def joinNl (xs : List Str) : Str := joinWith ['\n'] xs

/-- The zero-width / BOM characters removed globally by `normalizeCell`. -/
def isZeroWidth (c : Char) : Bool :=
  c = '​' || c = '‌' || c = '‍' || c = '﻿'

/-- Model of `normalizeCell` from part_001 (lines 161–163): strip zero-width and BOM
characters globally, then trim.  `safeText` on a string is the identity, and
an absent (`undefined`) cell is the empty string. -/
def normalizeCell (v : Str) : Str := jsTrim (v.filter (fun c => !isZeroWidth c))

/-- JS `row[i]` for a row modelled as a list of cell strings: out-of-range
access is `undefined`, which `safeText` turns into `""`. -/
def cellAt (row : List Str) (i : Nat) : Str := (row.get? i).getD []

/-- The value `normalizeCell(row[i])`, as done for columns 1–7 in `sheetToMatrixText`. -/
def col (row : List Str) (i : Nat) : Str := normalizeCell (cellAt row i)

/-- Header-row test from `sheetToMatrixText`
(`c1 && c2.toLowerCase() === "instructions"`). -/
def isHeaderRow (row : List Str) : Prop :=
  col row 1 ≠ [] ∧ lowerStr (col row 2) = lit "instructions"

instance (row : List Str) : Decidable (isHeaderRow row) := by
  unfold isHeaderRow; infer_instance

/-- The optional lines of a record block, in the source's fixed order
(Slack, Refund Queue, Create a Ticket, Supervisor, VIPRES). -/
def optionalLines (row : List Str) : List Str :=
  (if col row 3 ≠ [] then [lit "  Slack: " ++ col row 3] else []) ++
  (if col row 4 ≠ [] then [lit "  Refund Queue: " ++ col row 4] else []) ++
  (if col row 5 ≠ [] then [lit "  Create a Ticket: " ++ col row 5] else []) ++
  (if col row 6 ≠ [] then [lit "  Supervisor: " ++ col row 6] else []) ++
  (if col row 7 ≠ [] then [lit "  VIPRES: " ++ col row 7] else [])

/-- The `parts` array built for a data row. -/
def recordParts (row : List Str) : List Str :=
  (lit "- Issue: " ++ col row 1) :: (lit "  Instructions: " ++ col row 2) ::
    optionalLines row

/-- The record text `parts.join("\n")`: the record block emitted for a data row. -/
def recordBlock (row : List Str) : Str := joinNl (recordParts row)

/-- One iteration of the row loop of `sheetToMatrixText`
(part_001 lines 203–235, identically lines 1356–1388): given the current
category it returns the updated category and the lines pushed to `out`. -/
def matrixStep (cat : Str) (row : List Str) : Str × List Str :=
  if isHeaderRow row then
    (col row 1, [[], lit "# " ++ col row 1, []])
  else if col row 1 = [] ∨ col row 2 = [] then
    (cat, [])
  else
    ((if cat = [] then lit "General" else cat), [recordBlock row, []])

/-- The whole row loop, threading `currentCategory`. -/
def matrixLines (cat : Str) : List (List Str) → List Str
  | [] => []
  | row :: rest =>
    let s := matrixStep cat row
    s.2 ++ matrixLines s.1 rest

/-- Model of `sheetToMatrixText` from part_001 (lines 196–238 and 1349–1391), with the
worksheet already decoded to its grid of cells (`sheet_to_json` output). -/
def sheetToMatrixText (grid : List (List Str)) (sheetLabel : Str) : Str :=
  jsTrim (joinNl ((lit "=== " ++ sheetLabel ++ lit " ===") :: matrixLines [] grid))

/-- First-occurrence split: `splitFirst pat s = some (b, a)` splits `s` as
`b ++ pat ++ a` at the leftmost occurrence of `pat`, as JS
`String.prototype.replace` with a string pattern does. -/
def splitFirst (pat : Str) : Str → Option (Str × Str)
  | [] => if pat.isPrefixOf [] then some ([], []) else none
  | c :: cs =>
    if pat.isPrefixOf (c :: cs) then some ([], (c :: cs).drop pat.length)
    else (splitFirst pat cs).map (fun p => (c :: p.1, p.2))

/-- ECMAScript `GetSubstitution` for a string search (no capture groups):
`$$`, `$&`, `$` followed by backquote, and `$'` are special; everything else
is copied literally. `m` is the matched (= searched) string, `b` the part of
the subject before the match, `a` the part after it. -/
def jsSubstitution (m b a : Str) : Str → Str
  | [] => []
  | c :: rest =>
    if c = '$' then
      match rest with
      | [] => ['$']
      | d :: rest' =>
        if d = '$' then '$' :: jsSubstitution m b a rest'
        else if d = '&' then m ++ jsSubstitution m b a rest'
        else if d = '\x60' then b ++ jsSubstitution m b a rest'
        else if d = '\'' then a ++ jsSubstitution m b a rest'
        else '$' :: jsSubstitution m b a (d :: rest')
    else c :: jsSubstitution m b a rest

/-- JS `s.replace(pat, repl)` for a string `pat`: replace only the first
occurrence, applying `GetSubstitution` to the replacement text. -/
def jsReplace (s pat repl : Str) : Str :=
  match splitFirst pat s with
  | none => s
  | some (b, a) => b ++ jsSubstitution pat b a repl ++ a

/-- The fixed template text before the knowledge placeholder. -/
def promptHead : Str := lit "You are QA Master — strict compliance & quality expert for HotelPlanner call center agents.\nAnswer ONLY from the provided HotelPlanner documents.\nNever guess, never use external knowledge, never invent steps.\nIf question cannot be answered from documents or is unrelated → say: 'This question is outside the scope of our documented HotelPlanner procedures. Please check with your supervisor or QA team.'\n\nHotelPlanner documents:\n"

/-- The literal placeholder token for the knowledge corpus. -/
def knowledgeToken : Str := lit "\x7b\x7bhotelPlannerKnowledge\x7d\x7d"

/-- The fixed template text between the two placeholders. -/
def promptBetween : Str := lit "\n\nAgent question:\n"

/-- The literal placeholder token for the question. -/
def questionToken : Str := lit "\x7b\x7bquestion\x7d\x7d"

/-- The fixed template text after the question placeholder. -/
def promptTail : Str := lit "\n\nMandatory answer format (STRICT — follow exactly):\n\nFollow the steps:\n1) ...\n2) ...\n3) ...\n\nThen add:\n\nMatrix Reference\n- Sheet: [Voice Matrix or Ticket Matrix]\n- Category: [exact category header from matrix]\n- Issue Row: [exact issue title from matrix]\n\nQA Check\n• Compliance: [Yes/No + one sentence]\n• Guest experience: [one sentence]\n• Risk prevention: [one sentence]\n\nRules:\n- Use ONLY information that appears in the documents/matrix text above.\n- If the exact issue row cannot be found, say it is outside scope.\n- Do not add extra sections besides the required ones.\nBe concise yet complete (300–900 words)."

/-- Model of `SYSTEM_PROMPT` (part_001 lines 119–153): the template literal, written as
the concatenation of its pieces around the two inline placeholder tokens. -/
def SYSTEM_PROMPT : Str :=
  promptHead ++ knowledgeToken ++ promptBetween ++ questionToken ++ promptTail

/-- Model of `buildSystemPrompt` (part_001 lines 177–182): two sequential
first-occurrence replacements; the question is trimmed
(`String(question || "").trim()`). -/
def buildSystemPrompt (question knowledge : Str) : Str :=
  jsReplace (jsReplace SYSTEM_PROMPT knowledgeToken knowledge)
    questionToken (jsTrim question)

/-- Modelled from the spec (§4.3): the intended exact-literal single-pass
substitution, replacing each placeholder of the fixed template exactly once
at its template position. -/
def buildSystemPromptSpec (question knowledge : Str) : Str :=
  promptHead ++ knowledge ++ promptBetween ++ jsTrim question ++ promptTail

mutual
/-- JSON-decodable JavaScript values as they occur in decoded response
bodies (`res.json()` output, or raw text for non-JSON responses). -/
inductive JsVal where
  | vnull
  | vbool (b : Bool)
  | vnum (n : Int)
  | vstr (s : Str)
  | varr (a : JsArr)
  | vobj (o : JsObj)
/-- Arrays of JSON values. -/
inductive JsArr where
  | nil
  | cons (hd : JsVal) (tl : JsArr)
/-- Objects: ordered field lists (keys unique, as produced by `JSON.parse`). -/
inductive JsObj where
  | nil
  | cons (key : Str) (val : JsVal) (tl : JsObj)
end

/-- Property lookup on an object. -/
def JsObj.get : JsObj → Str → Option JsVal
  | .nil, _ => none
  | .cons k v tl, key => if k = key then some v else JsObj.get tl key

/-- JS property access `v.key` / `v?.key`: `undefined` (here `none`) on
anything that is not an object with that key. -/
def JsVal.get : JsVal → Str → Option JsVal
  | .vobj o, key => o.get key
  | _, _ => none

/-- Convert a model array to a Lean list. -/
def JsArr.toList : JsArr → List JsVal
  | .nil => []
  | .cons h t => h :: t.toList

/-- JS truthiness of a value. -/
def jsTruthy : JsVal → Bool
  | .vnull => false
  | .vbool b => b
  | .vnum n => n != 0
  | .vstr s => !s.isEmpty
  | .varr _ => true
  | .vobj _ => true

/-- JS truthiness of a possibly-`undefined` value. -/
def truthyOpt : Option JsVal → Bool
  | none => false
  | some v => jsTruthy v

/-- Decimal rendering of a JS integer number. -/
def intToStr (n : Int) : Str := lit (toString n)

mutual
/-- JS `String(v)` for the modelled values. -/
def jsToString : JsVal → Str
  | .vnull => lit "null"
  | .vbool true => lit "true"
  | .vbool false => lit "false"
  | .vnum n => intToStr n
  | .vstr s => s
  | .varr a => jsArrToString a
  | .vobj _ => lit "[object Object]"
/-- Model of `Array.prototype.toString`: elements joined by commas, `null` elements
rendered empty. -/
def jsArrToString : JsArr → Str
  | .nil => []
  | .cons h t =>
    (match h with | .vnull => [] | _ => jsToString h) ++
      (match t with | .nil => [] | .cons _ _ => ',' :: jsArrToString t)
end

/-- Hex digit for `\u00XX` escapes (lowercase, as `JSON.stringify`). -/
def hexDigit (n : Nat) : Char :=
  if n < 10 then Char.ofNat ('0'.toNat + n) else Char.ofNat ('a'.toNat + n - 10)

/-- Escaping used by `JSON.stringify` for of one character inside a string. -/
def jsonEscapeChar (c : Char) : Str :=
  if c = '"' then lit "\\\""
  else if c = '\\' then lit "\\\\"
  else if c = '\n' then lit "\\n"
  else if c = '\r' then lit "\\r"
  else if c = '\t' then lit "\\t"
  else if c = '\u0008' then lit "\\b"
  else if c = '\u000c' then lit "\\f"
  else if c.toNat < 32 then lit "\\u00" ++ [hexDigit (c.toNat / 16), hexDigit (c.toNat % 16)]
  else [c]

/-- Output of `JSON.stringify` on a string: quoted and escaped. -/
def jsonQuote (s : Str) : Str := '"' :: (s.flatMap jsonEscapeChar) ++ ['"']

mutual
/-- Model of `JSON.stringify(v, null, 2)` at the current indentation `ind`. -/
def jsonStringify (ind : Str) : JsVal → Str
  | .vnull => lit "null"
  | .vbool true => lit "true"
  | .vbool false => lit "false"
  | .vnum n => intToStr n
  | .vstr s => jsonQuote s
  | .varr .nil => lit "[]"
  | .varr (.cons h t) =>
    lit "[\n" ++ jsonItems (ind ++ lit "  ") (JsArr.cons h t) ++ '\n' :: ind ++ [']']
  | .vobj .nil => lit "\x7b\x7d"
  | .vobj (.cons k v t) =>
    lit "\x7b\n" ++ jsonFields (ind ++ lit "  ") (JsObj.cons k v t) ++ '\n' :: ind ++ ['\x7d']
/-- Array items, one per line. -/
def jsonItems (ind : Str) : JsArr → Str
  | .nil => []
  | .cons h t =>
    ind ++ jsonStringify ind h ++
      (match t with | .nil => [] | .cons _ _ => lit ",\n" ++ jsonItems ind t)
/-- Object fields, one per line. -/
def jsonFields (ind : Str) : JsObj → Str
  | .nil => []
  | .cons k v t =>
    ind ++ jsonQuote k ++ lit ": " ++ jsonStringify ind v ++
      (match t with | .nil => [] | .cons _ _ _ => lit ",\n" ++ jsonFields ind t)
end

/-- Model of `safeString` (part_001 lines 544–552 and 1874–1882): `""` for
null/undefined, identity on strings, `JSON.stringify(v, null, 2)` otherwise. -/
def safeString : JsVal → Str
  | .vnull => []
  | .vstr s => s
  | v => jsonStringify [] v

/-- Global replacement of CRLF by LF (`/\r\n/g`), scanning left to right. -/
def crlfToLf : Str → Str
  | [] => []
  | '\r' :: '\n' :: rest => '\n' :: crlfToLf rest
  | c :: rest => c :: crlfToLf rest

/-- Model of `normalizeWs` (lines 554–556 and 1884–1886) applied to a string:
CRLF to LF, NUL characters dropped, then trimmed. -/
def normalizeWsStr (s : Str) : Str :=
  jsTrim ((crlfToLf s).filter (fun c => c != '\u0000'))

/-- The function `normalizeWs` applied to an arbitrary value (it stringifies first). -/
def normalizeWs (v : JsVal) : Str := normalizeWsStr (safeString v)

/-- The function `normalizeWs` applied to a possibly-`undefined` value. -/
def normalizeWsOpt : Option JsVal → Str
  | none => []
  | some v => normalizeWs v

/-- Model of `safeText` (part_001 lines 155–159): identity on strings, `""` for
null/undefined, JS `String(v)` otherwise. -/
def safeText : JsVal → Str
  | .vstr s => s
  | .vnull => []
  | v => jsToString v

/-- The function `safeText` of a possibly-`undefined` value. -/
def safeTextOpt : Option JsVal → Str
  | none => []
  | some v => safeText v

/-- The flat fallback of `extractClaudeText`:
`safeText(payload?.text || payload?.output_text || "").trim()`. -/
def extractFlatText (payload : JsVal) : Str :=
  jsTrim (safeText (
    if truthyOpt (payload.get (lit "text")) then (payload.get (lit "text")).getD .vnull
    else if truthyOpt (payload.get (lit "output_text")) then
      (payload.get (lit "output_text")).getD .vnull
    else .vstr []))

/-- Filter of content blocks:
`b && (b.type === "text" || typeof b.text === "string")`. -/
def isTextBlock (b : JsVal) : Bool :=
  jsTruthy b &&
    ((match b.get (lit "type") with | some (.vstr s) => s = lit "text" | _ => false) ||
     (match b.get (lit "text") with | some (.vstr _) => true | _ => false))

/-- Model of `extractClaudeText` (part_001 lines 165–175): concatenate the text
blocks of a `content` array joined by blank lines; otherwise fall back to
the flat `text`/`output_text` fields. -/
def extractClaudeText (payload : JsVal) : Str :=
  match payload.get (lit "content") with
  | some (.varr a) =>
    let textBlocks := ((a.toList.filter isTextBlock).map
        (fun b => safeTextOpt (b.get (lit "text")))).filter (fun s => !s.isEmpty)
    if textBlocks.isEmpty then extractFlatText payload
    else jsTrim (joinWith (lit "\n\n") textBlocks)
  | _ => extractFlatText payload

/-- The ordered candidate list of `pickAnswerFromBody` (lines 1991–2001). -/
def pickCandidates (body : JsVal) : List (Option JsVal) :=
  [body.get (lit "answer"), body.get (lit "text"), body.get (lit "message"),
   body.get (lit "result"), body.get (lit "output"), body.get (lit "content"),
   (body.get (lit "data")).bind (fun d => d.get (lit "answer")),
   (body.get (lit "data")).bind (fun d => d.get (lit "text")),
   (body.get (lit "data")).bind (fun d => d.get (lit "message"))]

/-- The candidate loop of `pickAnswerFromBody` (lines 2003–2007): the first
candidate whose normalization is non-empty, else the normalized
(JSON-stringified) whole body. -/
def pickFromFields (body : JsVal) : Str :=
  (((pickCandidates body).map normalizeWsOpt).find? (fun s => !s.isEmpty)).getD
    (normalizeWs body)

/-- Model of `pickAnswerFromBody` (part_001 lines 1987–2008): `""` for null, identity
on strings, otherwise the candidate-field loop. -/
def pickAnswerFromBody : JsVal → Str
  | .vnull => []
  | .vstr s => s
  | .vbool b => pickFromFields (.vbool b)
  | .vnum n => pickFromFields (.vnum n)
  | .varr a => pickFromFields (.varr a)
  | .vobj o => pickFromFields (.vobj o)

/-- The success path of `send` (lines 2579–2580): the extracted answer, or
the literal fallback when it normalizes to empty. -/
def sendFinalText (body : JsVal) : Str :=
  let n := normalizeWsStr (pickAnswerFromBody body)
  if n = [] then lit "No answer returned from server." else n

/-- Outcome of one `fetchWithTimeout` POST to one endpoint: a response with
its decoded body, an abort (per-attempt timeout), or another network
failure (no status). -/
inductive FetchOutcome where
  | resp (status : Nat) (statusText : Str) (body : JsVal)
  | abort
  | fail (msg : Str)

/-- The error values thrown inside the dispatch flow. -/
inductive JsError where
  | httpErr (status : Nat) (path : Str) (body : JsVal) (message : Str)
  | abortErr
  | netErr (message : Str)
  | noEndpointErr

/-- The field `e?.status`: only HTTP errors carry one. -/
def JsError.status : JsError → Option Nat
  | .httpErr s _ _ _ => some s
  | _ => none

/-- The field `e?.body`. -/
def JsError.body : JsError → Option JsVal
  | .httpErr _ _ b _ => some b
  | _ => none

/-- The field `e?.path`. -/
def JsError.path : JsError → Option Str
  | .httpErr _ p _ _ => some p
  | _ => none

/-- The field `e?.message`; an abort carries the DOMException default text. -/
def JsError.message : JsError → Str
  | .httpErr _ _ _ m => m
  | .abortErr => lit "The operation was aborted."
  | .netErr m => m
  | .noEndpointErr => lit "No endpoint responded."

/-- The value `safeString(e?.body)`. -/
def safeStringOpt : Option JsVal → Str
  | none => []
  | some v => safeString v

/-- JS `hay.includes(pat)` / `/pat/.test(hay)` for a literal pattern:
scan for an occurrence of `pat`. -/
def containsSub (pat : Str) : Str → Bool
  | [] => pat.isPrefixOf []
  | c :: cs => pat.isPrefixOf (c :: cs) || containsSub pat cs

/-- Model of `isAbort` (lines 1892–1894): name `AbortError`, or `/aborted/i`
matching the error message. -/
def isAbort (e : JsError) : Bool :=
  match e with
  | .abortErr => true
  | _ => containsSub (lit "aborted") (lowerStr e.message)

/-- The `detailText` of a non-ok response (line 1958):
`normalizeWs(...) || res.statusText`. -/
def detailText (statusText : Str) (body : JsVal) : Str :=
  let d := normalizeWs body
  if d.isEmpty then statusText else d

/-- The message of the HTTP error thrown for a non-ok response (line 1959). -/
def mkHttpMsg (status : Nat) (path statusText : Str) (body : JsVal) : Str :=
  lit "HTTP " ++ lit (toString status) ++ lit " on " ++ path ++ lit ": " ++
    detailText statusText body

/-- The error object thrown for a non-ok response (lines 1959–1963). -/
def mkHttpErr (status : Nat) (path statusText : Str) (body : JsVal) : JsError :=
  .httpErr status path body (mkHttpMsg status path statusText body)

/-- A successful dispatch result (line 1966). -/
structure DispatchSuccess where
  status : Nat
  path : Str
  body : JsVal

/-- The loop of `postToAnyEndpoint` (lines 1927–1982): threading `lastErr`,
returning the result together with the ordered list of attempted paths.
`res.ok` is status 200–299; a 401/403 response or an abort-like error stops
the loop; any other failure records `lastErr` and falls through to the next
candidate path. -/
def postToAny (net : Str → FetchOutcome) :
    List Str → Option JsError → Except JsError DispatchSuccess × List Str
  | [], lastErr => (.error (lastErr.getD .noEndpointErr), [])
  | p :: rest, lastErr =>
    match net p with
    | .resp s st b =>
      if 200 ≤ s ∧ s ≤ 299 then (.ok ⟨s, p, b⟩, [p])
      else
        let e := mkHttpErr s p st b
        if s = 401 ∨ s = 403 then (.error e, [p])
        else if isAbort e then (.error e, [p])
        else
          let r := postToAny net rest (some e)
          (r.1, p :: r.2)
    | .abort => (.error .abortErr, [p])
    | .fail m =>
      let e := JsError.netErr m
      if isAbort e then (.error e, [p])
      else
        let r := postToAny net rest (some e)
        (r.1, p :: r.2)

/-- Model of `postToAnyEndpoint` (lines 1924–1985). -/
def postToAnyEndpoint (net : Str → FetchOutcome) (paths : List Str) :
    Except JsError DispatchSuccess × List Str :=
  postToAny net paths none

/-- The 429 backoff `900 + Math.floor(Math.random() * 500)` (line 2566),
with the random draw modelled by a jitter oracle value reduced mod 500. -/
def backoff429 (j : Nat) : Nat := 900 + j % 500

/-- The 5xx backoff `650 + Math.floor(Math.random() * 450)` (line 2570). -/
def backoff5xx (j : Nat) : Nat := 650 + j % 450

/-- The test `Number(e?.status) >= 500` (line 2569); `Number(undefined)` is NaN,
which compares false. -/
def status5xx (e : JsError) : Bool :=
  match e.status with
  | some s => 500 ≤ s
  | none => false

/-- The attempt loop of `send` (lines 2548–2577).  `attempt` is the current
attempt number, `left` the number of retries still allowed
(`maxAttempts - attempt`).  The network may answer differently on each
attempt (`net attempt`), `jit` is the jitter oracle.  Returns the result and
the list of backoff delays slept, in order.  When no retries are left every
error path of the catch block rethrows `e`, so the branches collapse. -/
def sendGo (net : Nat → Str → FetchOutcome) (paths : List Str) (jit : Nat → Nat) :
    Nat → Nat → Except JsError DispatchSuccess × List Nat
  | attempt, 0 =>
    match (postToAnyEndpoint (net attempt) paths).1 with
    | .ok suc => (.ok suc, [])
    | .error e => (.error e, [])
  | attempt, left + 1 =>
    match (postToAnyEndpoint (net attempt) paths).1 with
    | .ok suc => (.ok suc, [])
    | .error e =>
      if e.status = some 401 then (.error e, [])
      else if e.status = some 404 then (.error e, [])
      else if e.status = some 429 then
        let r := sendGo net paths jit (attempt + 1) left
        (r.1, backoff429 (jit attempt) :: r.2)
      else if status5xx e then
        let r := sendGo net paths jit (attempt + 1) left
        (r.1, backoff5xx (jit attempt) :: r.2)
      else (.error e, [])

/-- The dispatch phase of `send`: attempts start at 1 and the budget is
`maxAttempts` (2 in the source, line 2536). -/
def sendDispatch (net : Nat → Str → FetchOutcome) (paths : List Str)
    (jit : Nat → Nat) (maxAttempts : Nat) :
    Except JsError DispatchSuccess × List Nat :=
  sendGo net paths jit 1 (maxAttempts - 1)

/-- The candidate endpoint list of `send` (line 2535). -/
def sendEndpoints : List Str :=
  [lit "/api/claude", lit "/api/ask", lit "/ask", lit "/api/chat",
   lit "/chat", lit "/query", lit "/api/query"]

/-- Model of `isNoCreditsError` (lines 2155–2171). -/
def isNoCreditsError (e : JsError) : Bool :=
  let status := (JsError.status e).getD 0
  let rawBody := safeStringOpt (JsError.body e)
  let hay := lowerStr (JsError.message e ++ '\n' :: rawBody)
  let hit :=
    containsSub (lit "credit balance is too low") hay ||
    containsSub (lit "plans & billing") hay ||
    (containsSub (lit "insufficient") hay && containsSub (lit "credit") hay) ||
    (containsSub (lit "billing") hay && containsSub (lit "upgrade") hay) ||
    containsSub (lit "purchase credits") hay
  hit && (status == 400 || status == 402 || status == 403)

/-- The terminal kinds a turn can take (message `kind` values; a resolved
answer has `kind: undefined`, modelled as `none`). -/
inductive TurnKind where
  | loading
  | error401
  | error404
  | errorNoCredits
  | error
deriving DecidableEq

/-- The error-kind classification of the catch block of `send`
(lines 2589–2651): 401 first, then 404, then the no-credits heuristic,
otherwise the generic error kind. -/
def classifySendError (e : JsError) : TurnKind :=
  if JsError.status e = some 401 then .error401
  else if JsError.status e = some 404 then .error404
  else if isNoCreditsError e then .errorNoCredits
  else .error

/-- Message roles. -/
inductive Role where
  | user
  | assistant
deriving DecidableEq

/-- One transcript entry; opaque ids/timestamps and the thinking label are
omitted.  `kind = none` is an ordinary (resolved) message. -/
structure Msg where
  role : Role
  kind : Option TurnKind
  text : Str
deriving DecidableEq

/-- A banner (`setBanner` payloads): title and sub line. -/
structure Banner where
  title : Str
  sub : Str

/-- The state touched by the send path of the component (variant D). -/
structure AppState where
  messages : List Msg
  isSending : Bool
  input : Str
  banner : Option Banner
  docs : Str → Bool

/-- The document-toggle keys of `DOC_META` (lines 2103–2109). -/
def DOC_KEYS : List Str :=
  [lit "matrix", lit "trainingTxt", lit "trainingChunks", lit "qaVoice", lit "qaGroup"]

/-- The count `DOC_META.reduce((n, d) => n + (docs[d.key] ? 1 : 0), 0)` (line 2502). -/
def enabledCount (docs : Str → Bool) : Nat := (DOC_KEYS.filter docs).length

/-- The "No docs selected" banner (lines 2505–2509); the title's leading
characters are the mojibake pin emoji exactly as in the source bytes. -/
def noDocsBanner : Banner :=
  ⟨['ð', 'Ÿ', '“', 'Œ'] ++ lit " No docs selected",
   lit "Select at least one doc chip in the footer so answers follow policy correctly."⟩

/-- What the synchronous prefix of `send` (lines 2488–2511) decides:
return early (no-op), reject for zero selected docs, or start a dispatch. -/
inductive SendAction where
  | noop
  | blockedNoDocs
  | dispatched
deriving DecidableEq

/-- Guard chain of `send`: `if (!question || isSending) return;` then the
zero-docs rejection, else the dispatch path. -/
def sendAction (s : AppState) : SendAction :=
  if normalizeWsStr s.input = [] ∨ s.isSending = true then .noop
  else if enabledCount s.docs = 0 then .blockedNoDocs
  else .dispatched

/-- The synchronous state change of one `send()` invocation
(lines 2488–2532): a no-op, a banner-only rejection, or the appended
user turn plus loading assistant turn with the input cleared.  The network
dispatch is started only in the `dispatched` case. -/
def startSend (s : AppState) : AppState :=
  match sendAction s with
  | .noop => s
  | .blockedNoDocs => { s with banner := some noDocsBanner }
  | .dispatched =>
    { s with
      banner := none
      isSending := true
      messages := s.messages ++
        [⟨.user, none, normalizeWsStr s.input⟩, ⟨.assistant, some .loading, []⟩]
      input := [] }

/-- Scan for the first assistant message and merge the replacement into it
(the spread `{ ...copy[i], ...replacement }`). -/
def replaceFirstAssistant (repl : Option TurnKind × Str) : List Msg → List Msg
  | [] => []
  | m :: rest =>
    if m.role = .assistant then { m with kind := repl.1, text := repl.2 } :: rest
    else m :: replaceFirstAssistant repl rest

/-- Model of `replaceLastAssistant` (lines 2459–2475): walk from the end of the
transcript and update the most recent assistant message. -/
def replaceLastAssistant (repl : Option TurnKind × Str) (ms : List Msg) : List Msg :=
  (replaceFirstAssistant repl ms.reverse).reverse

/-- The kind written by the completion of `send`: `kind: undefined` on
success (line 2583), the classified error kind on failure. -/
def finishKind : Except JsError DispatchSuccess → Option TurnKind
  | .ok _ => none
  | .error e => some (classifySendError e)

/-- The event steps of the component: editing the input, toggling a doc
chip, invoking `send()`, and the completion callback of an in-flight
dispatch (which replaces the last assistant turn and clears `isSending`;
its text and any banner are abstracted). -/
inductive AppStep : AppState → AppState → Prop
  | edit (s : AppState) (newInput : Str) : AppStep s { s with input := newInput }
  | toggle (s : AppState) (key : Str) :
      AppStep s { s with docs := fun k => if k = key then !s.docs k else s.docs k }
  | submit (s : AppState) : AppStep s (startSend s)
  | finish (s : AppState) (outcome : Except JsError DispatchSuccess) (t : Str)
      (b : Option Banner) (h : s.isSending = true) :
      AppStep s { s with
        messages := replaceLastAssistant (finishKind outcome, t) s.messages
        isSending := false
        banner := b }

/-- States reachable from a fresh mount (empty transcript, empty input, no
banner, not sending; the doc toggles start from whatever the preference
store holds). -/
inductive Reachable : AppState → Prop
  | init (docs0 : Str → Bool) : Reachable ⟨[], false, [], none, docs0⟩
  | step {s s' : AppState} : Reachable s → AppStep s s' → Reachable s'

/-- Number of messages currently in the `loading` kind. -/
def loadingCount (ms : List Msg) : Nat :=
  (ms.filter (fun m => m.kind = some TurnKind.loading)).length

/-- The single-flight invariant: when no request is in flight no turn is
loading; while one is, the transcript ends with the unique loading
assistant turn. -/
def StateInv (s : AppState) : Prop :=
  (s.isSending = false → loadingCount s.messages = 0) ∧
  (s.isSending = true → ∃ pre last, s.messages = pre ++ [last] ∧
    last.role = Role.assistant ∧ last.kind = some TurnKind.loading ∧
    loadingCount pre = 0)

/-- Network used by the C1 counterexample: the first path answers 404, the
second answers 200. -/
def c1net : Str → FetchOutcome := fun p =>
  if p = lit "/a" then .resp 404 (lit "Not Found") (.vstr (lit "nope"))
  else .resp 200 (lit "OK") (.vstr (lit "answer from b"))

/-- Network used by the C10 counterexample: the 500 body text contains
"aborted", which the message-regex abort check misclassifies. -/
def c10badNet : Str → FetchOutcome := fun p =>
  if p = lit "/a" then .resp 500 (lit "Internal Server Error") (.vstr (lit "request aborted"))
  else .resp 200 (lit "OK") (.vstr (lit "fine"))

/-- Network used by the C10 witness. -/
def c10goodNet : Str → FetchOutcome := fun p =>
  if p = lit "/a" then .resp 500 (lit "Internal Server Error") (.vstr (lit "boom"))
  else .resp 200 (lit "OK") (.vstr (lit "fine"))

/-- Network used by the C2 witness: 429 on the first attempt, 200 with body
"hello" on the second. -/
def c2net : Nat → Str → FetchOutcome := fun attempt _ =>
  if attempt = 1 then .resp 429 (lit "Too Many Requests") (.vstr (lit "slow down"))
  else .resp 200 (lit "OK") (.vstr (lit "hello"))

/-- A provider-shaped 400 body carrying the Anthropic billing message, used
by the C4 witness. -/
def c4body : JsVal :=
  .vobj (.cons (lit "error")
    (.vobj (.cons (lit "type") (.vstr (lit "invalid_request_error"))
      (.cons (lit "message")
        (.vstr (lit "Your credit balance is too low to access the Anthropic API. Please go to Plans & Billing to upgrade or purchase credits."))
        .nil)))
    .nil)

/-- The content-blocks body used by the C8 counterexample. -/
def c8blocksBody : JsVal :=
  .vobj (.cons (lit "content")
    (.varr (.cons (.vobj (.cons (lit "type") (.vstr (lit "text"))
      (.cons (lit "text") (.vstr (lit "Hello")) .nil))) .nil))
    .nil)

/-- An object with no recognizable answer field, used by the C8
counterexample. -/
def c8plainBody : JsVal := .vobj (.cons (lit "foo") (.vstr (lit "x")) .nil)

/-! ## Theorems -/

theorem jsSubstitution_cons (m b a : Str) (c : Char) (rest : Str) (hc : ¬ c = '$') :
    jsSubstitution m b a (c :: rest) = c :: jsSubstitution m b a rest := by
  conv_lhs => rw [jsSubstitution.eq_def]
  simp only [if_neg hc]

theorem jsSubstitution_no_dollar (m b a : Str) {r : Str} (h : '$' ∉ r) :
    jsSubstitution m b a r = r := by
  induction r with
  | nil => rfl
  | cons c rest ih =>
    have hc : ¬ c = '$' := fun e => h (e ▸ List.mem_cons_self c rest)
    have hrest : '$' ∉ rest := fun e => h (List.mem_cons_of_mem c e)
    rw [jsSubstitution_cons m b a c rest hc, ih hrest]

theorem splitFirst_cons (pat : Str) (c : Char) (cs : Str) :
    splitFirst pat (c :: cs) =
      if pat.isPrefixOf (c :: cs) then some ([], (c :: cs).drop pat.length)
      else (splitFirst pat cs).map (fun p => (c :: p.1, p.2)) := by
  rw [splitFirst]

theorem splitFirst_append (c0 : Char) (pt b rest : Str) (hb : c0 ∉ b) :
    splitFirst (c0 :: pt) (b ++ (c0 :: pt) ++ rest) = some (b, rest) := by
  induction b with
  | nil =>
    rw [List.nil_append, List.cons_append, splitFirst_cons]
    have hcond : ((c0 :: pt).isPrefixOf (c0 :: (pt ++ rest))) = true :=
      List.isPrefixOf_iff_prefix.mpr (List.prefix_append _ _)
    rw [if_pos hcond]
    simp [List.drop_left]
  | cons c b' ih =>
    have hc : ¬ (c0 == c) = true := by
      simp only [beq_iff_eq]
      exact fun e => hb (e ▸ List.mem_cons_self c b')
    show splitFirst (c0 :: pt) (c :: (b' ++ (c0 :: pt) ++ rest)) = some (c :: b', rest)
    rw [splitFirst_cons]
    rw [if_neg (by simp [List.isPrefixOf, hc])]
    rw [ih (fun e => hb (List.mem_cons_of_mem c e))]
    rfl

theorem jsReplace_append (c0 : Char) (pt b rest repl : Str) (hb : c0 ∉ b) :
    jsReplace (b ++ (c0 :: pt) ++ rest) (c0 :: pt) repl
      = b ++ jsSubstitution (c0 :: pt) b rest repl ++ rest := by
  unfold jsReplace
  rw [splitFirst_append c0 pt b rest hb]

theorem mem_of_mem_jsTrim {c : Char} {s : Str} (h : c ∈ jsTrim s) : c ∈ s := by
  unfold jsTrim at h
  rw [List.mem_reverse] at h
  have h2 := (List.dropWhile_sublist (l := (s.dropWhile jsIsWs).reverse)
    (p := jsIsWs)).subset h
  rw [List.mem_reverse] at h2
  exact (List.dropWhile_sublist (l := s) (p := jsIsWs)).subset h2

theorem loadingCount_append (a b : List Msg) :
    loadingCount (a ++ b) = loadingCount a + loadingCount b := by
  simp [loadingCount, List.filter_append]

theorem loadingCount_pos_of_mem {m : Msg} {ms : List Msg} (hm : m ∈ ms)
    (hk : m.kind = some TurnKind.loading) : 0 < loadingCount ms := by
  have : m ∈ ms.filter (fun m => m.kind = some TurnKind.loading) :=
    List.mem_filter.mpr ⟨hm, by simp [hk]⟩
  exact List.length_pos.mpr (fun he => by simp [he] at this)

theorem finishKind_ne_loading (o : Except JsError DispatchSuccess) :
    finishKind o ≠ some TurnKind.loading := by
  cases o with
  | ok _ => simp [finishKind]
  | error e =>
    simp only [finishKind, classifySendError]
    split_ifs <;> simp

theorem replaceLastAssistant_snoc (repl : Option TurnKind × Str)
    (pre : List Msg) (last : Msg) (h : last.role = Role.assistant) :
    replaceLastAssistant repl (pre ++ [last])
      = pre ++ [{ last with kind := repl.1, text := repl.2 }] := by
  unfold replaceLastAssistant
  rw [List.reverse_append]
  simp only [List.reverse_cons, List.reverse_nil, List.nil_append, List.singleton_append]
  rw [replaceFirstAssistant, if_pos h]
  simp

theorem stateInv_of_reachable {s : AppState} (h : Reachable s) : StateInv s := by
  induction h with
  | init docs0 => exact ⟨fun _ => by simp [loadingCount], fun hx => by simp at hx⟩
  | step hr hstep ih =>
    rename_i s s'
    cases hstep with
    | edit newInput => exact ⟨fun hf => ih.1 hf, fun ht => ih.2 ht⟩
    | toggle key => exact ⟨fun hf => ih.1 hf, fun ht => ih.2 ht⟩
    | submit =>
      unfold startSend
      cases hact : sendAction s with
      | noop => exact ih
      | blockedNoDocs => exact ⟨fun hf => ih.1 hf, fun ht => ih.2 ht⟩
      | dispatched =>
        have hns : s.isSending = false := by
          by_contra hx
          have hb : s.isSending = true := by
            cases hb : s.isSending
            · exact absurd hb hx
            · rfl
          simp [sendAction, hb] at hact
        have h0 : loadingCount s.messages = 0 := ih.1 hns
        refine ⟨fun hf => by simp at hf, fun _ => ?_⟩
        refine ⟨s.messages ++ [⟨Role.user, none, normalizeWsStr s.input⟩],
          ⟨Role.assistant, some TurnKind.loading, []⟩, ?_, rfl, rfl, ?_⟩
        · simp
        · rw [loadingCount_append, h0]
          simp [loadingCount]
    | finish outcome t b hsend =>
      obtain ⟨pre, last, hmsg, hrole, hkind, hpre⟩ := ih.2 hsend
      refine ⟨fun _ => ?_, fun hx => by simp at hx⟩
      simp only [hmsg, replaceLastAssistant_snoc _ _ _ hrole]
      rw [loadingCount_append, hpre]
      simp [loadingCount, finishKind_ne_loading outcome]

theorem mem_if_singleton {α : Type} (P : Prop) [Decidable P] (x a : α) :
    (a ∈ if P then [x] else []) ↔ (P ∧ a = x) := by
  split_ifs with h <;> simp [h]

theorem ne_append_of_get (a b x y : Str) (i : Nat)
    (hia : i < a.length) (hib : i < b.length) (hne : a[i]? ≠ b[i]?) :
    a ++ x ≠ b ++ y := by
  intro h
  apply hne
  rw [← List.getElem?_append_left hia, h, List.getElem?_append_left hib]

theorem optionalLines_mem_iff (row : List Str) (l : Str) :
    l ∈ optionalLines row ↔
      ((col row 3 ≠ [] ∧ l = lit "  Slack: " ++ col row 3) ∨
       (col row 4 ≠ [] ∧ l = lit "  Refund Queue: " ++ col row 4) ∨
       (col row 5 ≠ [] ∧ l = lit "  Create a Ticket: " ++ col row 5) ∨
       (col row 6 ≠ [] ∧ l = lit "  Supervisor: " ++ col row 6) ∨
       (col row 7 ≠ [] ∧ l = lit "  VIPRES: " ++ col row 7)) := by
  simp [optionalLines, List.mem_append, mem_if_singleton]

theorem joinNl_cons (x : Str) (rest : List Str) :
    ∃ t : Str, joinNl (x :: rest) = x ++ t := by
  cases rest with
  | nil => exact ⟨[], by simp [joinNl, joinWith, List.intercalate]⟩
  | cons y ys =>
    refine ⟨['\n'] ++ joinNl (y :: ys), ?_⟩
    simp [joinNl, joinWith, List.intercalate, List.intersperse]

theorem jsTrim_wrapped (t : Str) :
    jsTrim (('=' :: t) ++ ['=']) = ('=' :: t) ++ ['='] := by
  have hne : jsIsWs '=' = false := by decide
  unfold jsTrim
  simp [List.dropWhile_cons, hne]

/-- C7 counterexample: for an empty worksheet the extractor does **not**
return the empty string — trimming does not remove the section header line;
the output is exactly `=== <label> ===`. -/
theorem claim_C7_counterexample :
    sheetToMatrixText [] (lit "VOICE MATRIX (Customer Service)") ≠ lit "" ∧
    sheetToMatrixText [] (lit "VOICE MATRIX (Customer Service)")
      = lit "=== VOICE MATRIX (Customer Service) ===" := by
  constructor
  · decide
  · decide

/-- C7 (amended): for an empty worksheet (zero grid rows) the matrix
extractor returns exactly the section header line `=== <label> ===`; the
final trim strips nothing because the line starts and ends with `=`, so the
output is never the empty string. -/
theorem claim_C7_empty_sheet (label : Str) :
    sheetToMatrixText [] label = lit "=== " ++ label ++ lit " ===" ∧
    sheetToMatrixText [] label ≠ [] := by
  have hshape : (lit "=== " ++ label ++ lit " ===" : Str)
      = ('=' :: (lit "== " ++ label ++ lit " ==")) ++ ['='] := by
    have e1 : (lit "=== " : Str) = '=' :: lit "== " := rfl
    have e2 : (lit " ===" : Str) = lit " ==" ++ ['='] := rfl
    rw [e1, e2]
    simp [List.append_assoc, List.cons_append]
  have hmain : sheetToMatrixText [] label = lit "=== " ++ label ++ lit " ===" := by
    unfold sheetToMatrixText matrixLines
    have hj : joinNl [lit "=== " ++ label ++ lit " ==="]
        = lit "=== " ++ label ++ lit " ===" := by
      simp [joinNl, joinWith, List.intercalate]
    rw [hj, hshape, jsTrim_wrapped]
  refine ⟨hmain, ?_⟩
  rw [hmain, hshape]
  simp

/-- C9 counterexample: the prompt builder substitutes sequentially with two
first-occurrence `replace` calls, so when the knowledge text itself contains
the literal token `{{question}}`, the question is substituted into the
knowledge section and the template's own question placeholder survives —
unlike the spec's exact single-pass substitution. -/
theorem claim_C9_counterexample :
    buildSystemPrompt (lit "Q") questionToken
      ≠ buildSystemPromptSpec (lit "Q") questionToken := by decide

/-- C9 (amended): provided neither input contains a brace (so neither can
collide with a placeholder token) and neither contains `$` (so JS
`GetSubstitution` escapes are inert), `buildSystemPrompt` produces the fixed
template with the knowledge and the trimmed question each substituted
exactly once at their template positions. -/
theorem claim_C9_exact_substitution (q k : Str)
    (hk1 : '\x7b' ∉ k) (hk2 : '$' ∉ k) (hq : '$' ∉ q) :
    buildSystemPrompt q k = buildSystemPromptSpec q k := by
  have hhead : '\x7b' ∉ promptHead := by decide
  have hbet : '\x7b' ∉ promptBetween := by decide
  have e1 : knowledgeToken = '\x7b' :: lit "\x7bhotelPlannerKnowledge\x7d\x7d" := rfl
  have e2 : questionToken = '\x7b' :: lit "\x7bquestion\x7d\x7d" := rfl
  unfold buildSystemPrompt
  rw [show SYSTEM_PROMPT = promptHead ++ knowledgeToken ++
        (promptBetween ++ questionToken ++ promptTail) by
      simp [SYSTEM_PROMPT, List.append_assoc]]
  rw [e1, jsReplace_append _ _ _ _ _ hhead, jsSubstitution_no_dollar _ _ _ hk2]
  rw [show promptHead ++ k ++ (promptBetween ++ questionToken ++ promptTail)
        = (promptHead ++ k ++ promptBetween) ++ questionToken ++ promptTail by
      simp [List.append_assoc]]
  have hb2 : '\x7b' ∉ promptHead ++ k ++ promptBetween := by
    intro h
    rcases List.mem_append.mp h with h' | h'
    · rcases List.mem_append.mp h' with h'' | h''
      · exact hhead h''
      · exact hk1 h''
    · exact hbet h'
  rw [e2, jsReplace_append _ _ _ _ _ hb2,
    jsSubstitution_no_dollar _ _ _ (fun h => hq (mem_of_mem_jsTrim h))]
  unfold buildSystemPromptSpec
  simp [List.append_assoc]

/-- C9 witness: the amended theorem applied to a concrete question and
knowledge corpus. -/
theorem claim_C9_witness :
    buildSystemPrompt (lit "What is the refund policy?") (lit "Be nice.")
      = buildSystemPromptSpec (lit "What is the refund policy?") (lit "Be nice.") :=
  claim_C9_exact_substitution _ _ (by decide) (by decide) (by decide)

/-- C5: a CategoryHeader row never emits a record block; a record block is
emitted exactly when the row is a data row (non-header with non-empty
normalized Issue and Instructions cells); the record always starts with the
non-empty Issue line followed by the Instructions line, and each optional
line appears iff its source cell is non-empty, in the fixed source order
(a sublist of the five lines in order); and the scenario row
`["", "Refund", "Process refund", "#slack-x", "", "", "", ""]` with the
category already set yields exactly
`- Issue: Refund\n  Instructions: Process refund\n  Slack: #slack-x`. -/
theorem claim_C5_matrix_records :
    (∀ cat row, isHeaderRow row →
      ∀ t ∈ (matrixStep cat row).2, ¬ (lit "- Issue: ").isPrefixOf t) ∧
    (∀ cat row, (∃ t, (matrixStep cat row).2 = [t, []] ∧ (lit "- Issue: ").isPrefixOf t)
        ↔ (¬ isHeaderRow row ∧ col row 1 ≠ [] ∧ col row 2 ≠ [])) ∧
    (∀ cat row, ¬ isHeaderRow row → col row 1 ≠ [] → col row 2 ≠ [] →
      (matrixStep cat row).2 = [recordBlock row, []] ∧
      recordBlock row = joinNl ((lit "- Issue: " ++ col row 1) ::
        (lit "  Instructions: " ++ col row 2) :: optionalLines row) ∧
      List.Sublist (optionalLines row)
        [lit "  Slack: " ++ col row 3, lit "  Refund Queue: " ++ col row 4,
         lit "  Create a Ticket: " ++ col row 5, lit "  Supervisor: " ++ col row 6,
         lit "  VIPRES: " ++ col row 7] ∧
      ((lit "  Slack: " ++ col row 3) ∈ optionalLines row ↔ col row 3 ≠ []) ∧
      ((lit "  Refund Queue: " ++ col row 4) ∈ optionalLines row ↔ col row 4 ≠ []) ∧
      ((lit "  Create a Ticket: " ++ col row 5) ∈ optionalLines row ↔ col row 5 ≠ []) ∧
      ((lit "  Supervisor: " ++ col row 6) ∈ optionalLines row ↔ col row 6 ≠ []) ∧
      ((lit "  VIPRES: " ++ col row 7) ∈ optionalLines row ↔ col row 7 ≠ [])) ∧
    recordBlock [[], lit "Refund", lit "Process refund", lit "#slack-x", [], [], [], []]
      = lit "- Issue: Refund\n  Instructions: Process refund\n  Slack: #slack-x" ∧
    sheetToMatrixText
      [[[], lit "Refunds", lit "Instructions"],
       [[], lit "Refund", lit "Process refund", lit "#slack-x", [], [], [], []]]
      (lit "L")
      = lit "=== L ===\n\n# Refunds\n\n- Issue: Refund\n  Instructions: Process refund\n  Slack: #slack-x" := by
  have hslack_ne_rq : ∀ x y : Str, lit "  Slack: " ++ x ≠ lit "  Refund Queue: " ++ y :=
    fun x y => ne_append_of_get _ _ _ _ 2 (by decide) (by decide) (by decide)
  have hslack_ne_ct : ∀ x y : Str, lit "  Slack: " ++ x ≠ lit "  Create a Ticket: " ++ y :=
    fun x y => ne_append_of_get _ _ _ _ 2 (by decide) (by decide) (by decide)
  have hslack_ne_sup : ∀ x y : Str, lit "  Slack: " ++ x ≠ lit "  Supervisor: " ++ y :=
    fun x y => ne_append_of_get _ _ _ _ 3 (by decide) (by decide) (by decide)
  have hslack_ne_vip : ∀ x y : Str, lit "  Slack: " ++ x ≠ lit "  VIPRES: " ++ y :=
    fun x y => ne_append_of_get _ _ _ _ 2 (by decide) (by decide) (by decide)
  have hrq_ne_ct : ∀ x y : Str, lit "  Refund Queue: " ++ x ≠ lit "  Create a Ticket: " ++ y :=
    fun x y => ne_append_of_get _ _ _ _ 2 (by decide) (by decide) (by decide)
  have hrq_ne_sup : ∀ x y : Str, lit "  Refund Queue: " ++ x ≠ lit "  Supervisor: " ++ y :=
    fun x y => ne_append_of_get _ _ _ _ 2 (by decide) (by decide) (by decide)
  have hrq_ne_vip : ∀ x y : Str, lit "  Refund Queue: " ++ x ≠ lit "  VIPRES: " ++ y :=
    fun x y => ne_append_of_get _ _ _ _ 2 (by decide) (by decide) (by decide)
  have hct_ne_sup : ∀ x y : Str, lit "  Create a Ticket: " ++ x ≠ lit "  Supervisor: " ++ y :=
    fun x y => ne_append_of_get _ _ _ _ 2 (by decide) (by decide) (by decide)
  have hct_ne_vip : ∀ x y : Str, lit "  Create a Ticket: " ++ x ≠ lit "  VIPRES: " ++ y :=
    fun x y => ne_append_of_get _ _ _ _ 2 (by decide) (by decide) (by decide)
  have hsup_ne_vip : ∀ x y : Str, lit "  Supervisor: " ++ x ≠ lit "  VIPRES: " ++ y :=
    fun x y => ne_append_of_get _ _ _ _ 2 (by decide) (by decide) (by decide)
  refine ⟨?_, ?_, ?_, by decide, by decide⟩
  · intro cat row hH t ht
    rw [matrixStep, if_pos hH] at ht
    have hne : ('-' == '#') = false := by decide
    have e0 : (lit "- Issue: " : Str) = '-' :: lit " Issue: " := rfl
    simp only [List.mem_cons, List.not_mem_nil, or_false] at ht
    rcases ht with rfl | rfl | rfl
    · decide
    · rw [e0]
      simp [List.isPrefixOf, hne]
    · decide
  · intro cat row
    constructor
    · rintro ⟨t, hemit, hpre⟩
      by_cases hH : isHeaderRow row
      · rw [matrixStep, if_pos hH] at hemit
        exact absurd (congrArg List.length hemit) (by simp)
      · by_cases h12 : col row 1 = [] ∨ col row 2 = []
        · rw [matrixStep, if_neg hH, if_pos h12] at hemit
          exact absurd hemit (by simp)
        · push_neg at h12
          exact ⟨hH, h12.1, h12.2⟩
    · rintro ⟨hH, h1, h2⟩
      refine ⟨recordBlock row, ?_, ?_⟩
      · rw [matrixStep, if_neg hH, if_neg (by simp [h1, h2])]
      · obtain ⟨t, ht⟩ := joinNl_cons (lit "- Issue: " ++ col row 1)
          ((lit "  Instructions: " ++ col row 2) :: optionalLines row)
        rw [recordBlock, recordParts, ht, List.append_assoc]
        exact List.isPrefixOf_iff_prefix.mpr (List.prefix_append _ _)
  · intro cat row hH h1 h2
    refine ⟨?_, rfl, ?_, ?_, ?_, ?_, ?_, ?_⟩
    · rw [matrixStep, if_neg hH, if_neg (by simp [h1, h2])]
    · have s3 : List.Sublist (if col row 3 ≠ [] then [lit "  Slack: " ++ col row 3] else [])
          [lit "  Slack: " ++ col row 3] := by split_ifs <;> simp
      have s4 : List.Sublist (if col row 4 ≠ [] then [lit "  Refund Queue: " ++ col row 4] else [])
          [lit "  Refund Queue: " ++ col row 4] := by split_ifs <;> simp
      have s5 : List.Sublist (if col row 5 ≠ [] then [lit "  Create a Ticket: " ++ col row 5] else [])
          [lit "  Create a Ticket: " ++ col row 5] := by split_ifs <;> simp
      have s6 : List.Sublist (if col row 6 ≠ [] then [lit "  Supervisor: " ++ col row 6] else [])
          [lit "  Supervisor: " ++ col row 6] := by split_ifs <;> simp
      have s7 : List.Sublist (if col row 7 ≠ [] then [lit "  VIPRES: " ++ col row 7] else [])
          [lit "  VIPRES: " ++ col row 7] := by split_ifs <;> simp
      unfold optionalLines
      rw [show ([lit "  Slack: " ++ col row 3, lit "  Refund Queue: " ++ col row 4,
            lit "  Create a Ticket: " ++ col row 5, lit "  Supervisor: " ++ col row 6,
            lit "  VIPRES: " ++ col row 7] : List Str)
          = (((([lit "  Slack: " ++ col row 3] ++ [lit "  Refund Queue: " ++ col row 4]) ++
            [lit "  Create a Ticket: " ++ col row 5]) ++ [lit "  Supervisor: " ++ col row 6]) ++
              [lit "  VIPRES: " ++ col row 7]) from rfl]
      exact (((s3.append s4).append s5).append s6).append s7
    · rw [optionalLines_mem_iff]
      constructor
      · rintro (⟨h, _⟩ | ⟨_, h⟩ | ⟨_, h⟩ | ⟨_, h⟩ | ⟨_, h⟩)
        · exact h
        · exact absurd h (hslack_ne_rq _ _)
        · exact absurd h (hslack_ne_ct _ _)
        · exact absurd h (hslack_ne_sup _ _)
        · exact absurd h (hslack_ne_vip _ _)
      · exact fun h => Or.inl ⟨h, rfl⟩
    · rw [optionalLines_mem_iff]
      constructor
      · rintro (⟨_, h⟩ | ⟨h, _⟩ | ⟨_, h⟩ | ⟨_, h⟩ | ⟨_, h⟩)
        · exact absurd h.symm (hslack_ne_rq _ _)
        · exact h
        · exact absurd h (hrq_ne_ct _ _)
        · exact absurd h (hrq_ne_sup _ _)
        · exact absurd h (hrq_ne_vip _ _)
      · exact fun h => Or.inr (Or.inl ⟨h, rfl⟩)
    · rw [optionalLines_mem_iff]
      constructor
      · rintro (⟨_, h⟩ | ⟨_, h⟩ | ⟨h, _⟩ | ⟨_, h⟩ | ⟨_, h⟩)
        · exact absurd h.symm (hslack_ne_ct _ _)
        · exact absurd h.symm (hrq_ne_ct _ _)
        · exact h
        · exact absurd h (hct_ne_sup _ _)
        · exact absurd h (hct_ne_vip _ _)
      · exact fun h => Or.inr (Or.inr (Or.inl ⟨h, rfl⟩))
    · rw [optionalLines_mem_iff]
      constructor
      · rintro (⟨_, h⟩ | ⟨_, h⟩ | ⟨_, h⟩ | ⟨h, _⟩ | ⟨_, h⟩)
        · exact absurd h.symm (hslack_ne_sup _ _)
        · exact absurd h.symm (hrq_ne_sup _ _)
        · exact absurd h.symm (hct_ne_sup _ _)
        · exact h
        · exact absurd h (hsup_ne_vip _ _)
      · exact fun h => Or.inr (Or.inr (Or.inr (Or.inl ⟨h, rfl⟩)))
    · rw [optionalLines_mem_iff]
      constructor
      · rintro (⟨_, h⟩ | ⟨_, h⟩ | ⟨_, h⟩ | ⟨_, h⟩ | ⟨h, _⟩)
        · exact absurd h.symm (hslack_ne_vip _ _)
        · exact absurd h.symm (hrq_ne_vip _ _)
        · exact absurd h.symm (hct_ne_vip _ _)
        · exact absurd h.symm (hsup_ne_vip _ _)
        · exact h
      · exact fun h => Or.inr (Or.inr (Or.inr (Or.inr ⟨h, rfl⟩)))

/-- C5 witness: the data-row part applied to the scenario row (category
already set), and the header part applied to a header row. -/
theorem claim_C5_witness :
    (matrixStep (lit "Refunds")
        [[], lit "Refund", lit "Process refund", lit "#slack-x", [], [], [], []]).2
      = [recordBlock [[], lit "Refund", lit "Process refund", lit "#slack-x", [], [], [], []], []] ∧
    ((lit "  Slack: " ++ col [[], lit "Refund", lit "Process refund", lit "#slack-x", [], [], [], []] 3)
      ∈ optionalLines [[], lit "Refund", lit "Process refund", lit "#slack-x", [], [], [], []]
      ↔ col [[], lit "Refund", lit "Process refund", lit "#slack-x", [], [], [], []] 3 ≠ []) := by
  have h := claim_C5_matrix_records.2.2.1 (lit "Refunds")
    [[], lit "Refund", lit "Process refund", lit "#slack-x", [], [], [], []]
    (by decide) (by decide) (by decide)
  exact ⟨h.1, h.2.2.2.1⟩

/-- C3: in every reachable state at most one turn is `loading` (exactly one
while a request is in flight), and whenever some turn is `loading`, invoking
`send` again is a no-op — the guard returns before any turn is appended or
any network dispatch is started, so the transcript is unchanged. -/
theorem claim_C3_loading_locks_send (s : AppState) (h : Reachable s) :
    loadingCount s.messages ≤ 1 ∧
    ((∃ m ∈ s.messages, m.kind = some TurnKind.loading) →
      sendAction s = SendAction.noop ∧ startSend s = s) := by
  have inv := stateInv_of_reachable h
  have hsend : s.isSending = true ∨ s.isSending = false := by
    cases s.isSending
    · exact Or.inr rfl
    · exact Or.inl rfl
  constructor
  · rcases hsend with ht | hf
    · obtain ⟨pre, last, hmsg, _, _, hpre⟩ := inv.2 ht
      rw [hmsg, loadingCount_append, hpre]
      simpa [loadingCount] using List.length_filter_le
        (fun m => decide (m.kind = some TurnKind.loading)) [last]
    · rw [inv.1 hf]
      omega
  · rintro ⟨m, hm, hk⟩
    have ht : s.isSending = true := by
      rcases hsend with ht | hf
      · exact ht
      · have h0 := inv.1 hf
        have := loadingCount_pos_of_mem hm hk
        omega
    have hact : sendAction s = SendAction.noop := by
      simp [sendAction, ht]
    refine ⟨hact, ?_⟩
    unfold startSend
    rw [hact]

/-- C3 witness: from a fresh state, set a question and submit; the resulting
state has a loading assistant turn and a second `send` is classified a
no-op by the claim theorem. -/
theorem claim_C3_witness :
    sendAction (startSend ⟨[], false, lit "hi", none, fun _ => true⟩)
        = SendAction.noop ∧
    loadingCount (startSend ⟨[], false, lit "hi", none, fun _ => true⟩).messages ≤ 1 := by
  have hreach : Reachable (startSend ⟨[], false, lit "hi", none, fun _ => true⟩) := by
    have h0 : Reachable ⟨[], false, [], none, fun _ => true⟩ :=
      Reachable.init (fun _ => true)
    have h1 : Reachable ⟨[], false, lit "hi", none, fun _ => true⟩ :=
      Reachable.step h0 (AppStep.edit _ (lit "hi"))
    exact Reachable.step h1 (AppStep.submit _)
  have h := claim_C3_loading_locks_send _ hreach
  refine ⟨(h.2 ?_).1, h.1⟩
  exact ⟨⟨Role.assistant, some TurnKind.loading, []⟩, by decide, rfl⟩

/-- C6: a submission with a non-empty trimmed question but zero enabled doc
toggles is rejected synchronously: the action is the blocked case (not the
dispatched one, so no network call and nothing reaches the dispatcher), the
only state change is the advisory banner whose title carries
"No docs selected", and no turn is appended. -/
theorem claim_C6_no_docs_rejected (s : AppState)
    (hq : normalizeWsStr s.input ≠ []) (hs : s.isSending = false)
    (hd : enabledCount s.docs = 0) :
    sendAction s = SendAction.blockedNoDocs ∧
    startSend s = { s with banner := some noDocsBanner } ∧
    (startSend s).messages = s.messages ∧
    (startSend s).isSending = false ∧
    (lit "No docs selected") <:+: noDocsBanner.title := by
  have hact : sendAction s = SendAction.blockedNoDocs := by
    simp [sendAction, hq, hs, hd]
  have hstart : startSend s = { s with banner := some noDocsBanner } := by
    unfold startSend
    rw [hact]
  refine ⟨hact, hstart, ?_, ?_, ?_⟩
  · rw [hstart]
  · rw [hstart]
    exact hs
  · exact ⟨['ð', 'Ÿ', '“', 'Œ', ' '], [], by decide⟩

/-- C6 witness: the scenario submission "guest wants late checkout" with all
doc toggles off. -/
theorem claim_C6_witness :
    sendAction ⟨[], false, lit "guest wants late checkout", none, fun _ => false⟩
        = SendAction.blockedNoDocs ∧
    (startSend ⟨[], false, lit "guest wants late checkout", none, fun _ => false⟩).messages
        = [] := by
  have h := claim_C6_no_docs_rejected
    ⟨[], false, lit "guest wants late checkout", none, fun _ => false⟩
    (by decide) rfl (by decide)
  exact ⟨h.1, h.2.2.1⟩

/-- C1 counterexample: a 404 from the first endpoint does **not** abort the
dispatch — the second endpoint is attempted and its 200 body is returned,
contradicting "no remaining candidate endpoint is attempted" for 404. -/
theorem claim_C1_counterexample :
    postToAnyEndpoint c1net [lit "/a", lit "/b"]
      = (.ok ⟨200, lit "/b", .vstr (lit "answer from b")⟩, [lit "/a", lit "/b"]) := rfl

/-- C1 (amended): a 401 or 403 response aborts the endpoint loop at once —
only that endpoint was attempted and its error is thrown; and once a
dispatch cycle has failed with a 401, 403 or 404 error, the retry loop of
`send` starts no further cycle and sleeps no backoff.  (A 404, unlike
401/403, does not short-circuit the endpoint loop itself.) -/
theorem claim_C1_fatal_statuses :
    (∀ (net : Str → FetchOutcome) (p : Str) (rest : List Str)
        (lastErr : Option JsError) (st : Str) (b : JsVal) (s : Nat),
      net p = .resp s st b → (s = 401 ∨ s = 403) →
      postToAny net (p :: rest) lastErr = (.error (mkHttpErr s p st b), [p])) ∧
    (∀ (net : Nat → Str → FetchOutcome) (paths : List Str) (jit : Nat → Nat)
        (attempt left : Nat) (e : JsError),
      (postToAnyEndpoint (net attempt) paths).1 = .error e →
      (JsError.status e = some 401 ∨ JsError.status e = some 403 ∨
        JsError.status e = some 404) →
      sendGo net paths jit attempt left = (.error e, [])) := by
  constructor
  · intro net p rest lastErr st b s hnet hs
    rw [postToAny, hnet]
    rcases hs with rfl | rfl <;> simp [mkHttpErr]
  · intro net paths jit attempt left e hcyc hst
    cases left with
    | zero =>
      rw [sendGo, hcyc]
    | succ left' =>
      rw [sendGo, hcyc]
      rcases hst with h | h | h
      · simp [h]
      · simp [h, status5xx]
      · simp [h]

/-- C1 witness: the endpoint-level part at a concrete 401 network, and the
loop-level part at a concrete 404 cycle error. -/
theorem claim_C1_witness :
    postToAny (fun _ => .resp 401 (lit "Unauthorized") (.vstr (lit "no key")))
        [lit "/a", lit "/b"] none
      = (.error (mkHttpErr 401 (lit "/a") (lit "Unauthorized") (.vstr (lit "no key"))), [lit "/a"]) ∧
    sendGo (fun _ => c1net) [lit "/a"] (fun _ => 0) 1 1
      = (.error (mkHttpErr 404 (lit "/a") (lit "Not Found") (.vstr (lit "nope"))), []) := by
  constructor
  · exact claim_C1_fatal_statuses.1 _ (lit "/a") [lit "/b"] none
      (lit "Unauthorized") (.vstr (lit "no key")) 401 rfl (Or.inl rfl)
  · exact claim_C1_fatal_statuses.2 (fun _ => c1net) [lit "/a"] (fun _ => 0) 1 1
      (mkHttpErr 404 (lit "/a") (lit "Not Found") (.vstr (lit "nope")))
      rfl (Or.inr (Or.inr rfl))

/-- C10 counterexample: with A returning 500 whose body contains "aborted",
`isAbort` matches the error message and the dispatcher stops after A — B is
never attempted and the result is not B's body. -/
theorem claim_C10_counterexample :
    (postToAnyEndpoint c10badNet [lit "/a", lit "/b"]).2 = [lit "/a"] ∧
    (postToAnyEndpoint c10badNet [lit "/a", lit "/b"]).1
      = .error (mkHttpErr 500 (lit "/a") (lit "Internal Server Error")
          (.vstr (lit "request aborted"))) := ⟨rfl, rfl⟩

/-- C10 (amended): with endpoints `[A, B]` where A answers 500 and B answers
200, the dispatcher attempts A before B and returns B's body — provided A's
error message does not match the `/aborted/i` abort heuristic. -/
theorem claim_C10_order_fallback (net : Str → FetchOutcome) (pa pb : Str)
    (stA stB : Str) (bodyA bodyB : JsVal)
    (ha : net pa = .resp 500 stA bodyA) (hb : net pb = .resp 200 stB bodyB)
    (hnab : containsSub (lit "aborted") (lowerStr (mkHttpMsg 500 pa stA bodyA)) = false) :
    postToAnyEndpoint net [pa, pb] = (.ok ⟨200, pb, bodyB⟩, [pa, pb]) := by
  unfold postToAnyEndpoint
  rw [postToAny, ha]
  have hab : isAbort (mkHttpErr 500 pa stA bodyA) = false := by
    simp [isAbort, JsError.message, mkHttpErr, hnab]
  simp only [hab]
  rw [postToAny, hb]
  simp

/-- C10 witness: the amended ordering/fallback property at a concrete
network. -/
theorem claim_C10_witness :
    postToAnyEndpoint c10goodNet [lit "/a", lit "/b"]
      = (.ok ⟨200, lit "/b", .vstr (lit "fine")⟩, [lit "/a", lit "/b"]) :=
  claim_C10_order_fallback c10goodNet (lit "/a") (lit "/b")
    (lit "Internal Server Error") (lit "OK") (.vstr (lit "boom")) (.vstr (lit "fine"))
    rfl rfl (by decide)

/-- C2: when a dispatch cycle fails with 429 (resp. 5xx) and the attempt
budget is not exhausted, exactly one backoff delay is slept — with base 900
for 429 and the strictly smaller base 650 for 5xx, plus bounded jitter — and
the same endpoint list is retried from the top; in the scenario of an
endpoint answering 429 on attempt 1 and 200 on attempt 2 with budget
`maxAttempts = 2`, the final result is the attempt-2 body and the delay list
has exactly one (429-based) entry. -/
theorem claim_C2_retry_backoff :
    (∀ (net : Nat → Str → FetchOutcome) (paths : List Str) (jit : Nat → Nat)
        (attempt left : Nat) (e : JsError),
      (postToAnyEndpoint (net attempt) paths).1 = .error e →
      JsError.status e = some 429 →
      sendGo net paths jit attempt (left + 1)
        = ((sendGo net paths jit (attempt + 1) left).1,
           backoff429 (jit attempt) :: (sendGo net paths jit (attempt + 1) left).2)) ∧
    (∀ (net : Nat → Str → FetchOutcome) (paths : List Str) (jit : Nat → Nat)
        (attempt left : Nat) (e : JsError) (s : Nat),
      (postToAnyEndpoint (net attempt) paths).1 = .error e →
      JsError.status e = some s → 500 ≤ s →
      sendGo net paths jit attempt (left + 1)
        = ((sendGo net paths jit (attempt + 1) left).1,
           backoff5xx (jit attempt) :: (sendGo net paths jit (attempt + 1) left).2)) ∧
    (∀ j, 900 ≤ backoff429 j ∧ backoff429 j ≤ 1399 ∧
          650 ≤ backoff5xx j ∧ backoff5xx j ≤ 1099) ∧
    backoff5xx 0 < backoff429 0 ∧
    (∀ (net : Nat → Str → FetchOutcome) (p : Str) (jit : Nat → Nat)
        (st1 st2 : Str) (b1 b2 : JsVal),
      net 1 p = .resp 429 st1 b1 → net 2 p = .resp 200 st2 b2 →
      sendDispatch net [p] jit 2 = (.ok ⟨200, p, b2⟩, [backoff429 (jit 1)])) := by
  have h429 : ∀ (net : Nat → Str → FetchOutcome) (paths : List Str) (jit : Nat → Nat)
      (attempt left : Nat) (e : JsError),
      (postToAnyEndpoint (net attempt) paths).1 = .error e →
      JsError.status e = some 429 →
      sendGo net paths jit attempt (left + 1)
        = ((sendGo net paths jit (attempt + 1) left).1,
           backoff429 (jit attempt) :: (sendGo net paths jit (attempt + 1) left).2) := by
    intro net paths jit attempt left e hcyc hst
    rw [sendGo, hcyc]
    simp [hst]
  refine ⟨h429, ?_, ?_, ?_, ?_⟩
  · intro net paths jit attempt left e s hcyc hst h5
    rw [sendGo, hcyc]
    have h401 : ¬ JsError.status e = some 401 := by
      rw [hst]; intro hx; injection hx with hx; omega
    have h404 : ¬ JsError.status e = some 404 := by
      rw [hst]; intro hx; injection hx with hx; omega
    have h429' : ¬ JsError.status e = some 429 := by
      rw [hst]; intro hx; injection hx with hx; omega
    have h5xx : status5xx e = true := by
      simp [status5xx, hst, h5]
    simp [h401, h404, h429', h5xx]
  · intro j
    have hj1 : j % 500 < 500 := Nat.mod_lt _ (by omega)
    have hj2 : j % 450 < 450 := Nat.mod_lt _ (by omega)
    unfold backoff429 backoff5xx
    omega
  · decide
  · intro net p jit st1 st2 b1 b2 h1 h2
    have hcyc1 : (postToAnyEndpoint (net 1) [p]).1
        = .error (mkHttpErr 429 p st1 b1) := by
      unfold postToAnyEndpoint
      rw [postToAny, h1]
      have hno : ¬ (200 ≤ 429 ∧ 429 ≤ 299) := by omega
      have hnf : ¬ (429 = 401 ∨ 429 = 403) := by omega
      simp only [if_neg hno, if_neg hnf]
      split
      · rfl
      · rw [postToAny]
        rfl
    have hcyc2 : (postToAnyEndpoint (net 2) [p]).1 = .ok ⟨200, p, b2⟩ := by
      unfold postToAnyEndpoint
      rw [postToAny, h2]
      simp
    have hgo2 : sendGo net [p] jit 2 0 = (.ok ⟨200, p, b2⟩, []) := by
      rw [sendGo, hcyc2]
    unfold sendDispatch
    rw [h429 net [p] jit 1 0 (mkHttpErr 429 p st1 b1) hcyc1 rfl, hgo2]

/-- C2 witness: the retry scenario at a concrete endpoint, network and
jitter draw — one backoff of 900 + 123 ms, final body from attempt 2. -/
theorem claim_C2_witness :
    sendDispatch c2net [lit "/api/claude"] (fun _ => 123) 2
      = (.ok ⟨200, lit "/api/claude", .vstr (lit "hello")⟩, [backoff429 123]) :=
  claim_C2_retry_backoff.2.2.2.2 c2net (lit "/api/claude") (fun _ => 123)
    (lit "Too Many Requests") (lit "OK") (.vstr (lit "slow down")) (.vstr (lit "hello"))
    rfl rfl

theorem containsSub_of_prefixOf {pat s : Str} (h : pat.isPrefixOf s = true) :
    containsSub pat s = true := by
  cases s with
  | nil => rw [containsSub]; exact h
  | cons c cs => rw [containsSub, h]; rfl

theorem containsSub_complete {pat s : Str} (h : pat <:+: s) :
    containsSub pat s = true := by
  obtain ⟨pre, suf, hps⟩ := h
  subst hps
  induction pre with
  | nil =>
    rw [List.nil_append]
    exact containsSub_of_prefixOf
      ( List.isPrefixOf_iff_prefix.mpr (List.prefix_append _ _))
  | cons c pre' ih =>
    show containsSub pat (c :: (pre' ++ pat ++ suf)) = true
    rw [containsSub, ih]
    simp

/-- C4: an HTTP error with status 400 (or 402/403) whose body contains the
billing signal "credit balance is too low" is detected by
`isNoCreditsError` and classified by the `send` catch block as the
no-credits kind — not as the generic (server) error kind. -/
theorem claim_C4_no_credits_classification (s : Nat) (p st : Str) (b : JsVal)
    (hs : s = 400 ∨ s = 402 ∨ s = 403)
    (hb : (lit "credit balance is too low") <:+: lowerStr (safeString b)) :
    isNoCreditsError (mkHttpErr s p st b) = true ∧
    classifySendError (mkHttpErr s p st b) = TurnKind.errorNoCredits ∧
    classifySendError (mkHttpErr s p st b) ≠ TurnKind.error := by
  have hnl : Char.toLower '\n' = '\n' := by decide
  have hchain : containsSub (lit "credit balance is too low")
      (lowerStr (mkHttpMsg s p st b ++ '\n' :: safeString b)) = true := by
    apply containsSub_complete
    have heq : lowerStr (mkHttpMsg s p st b ++ '\n' :: safeString b)
        = lowerStr (mkHttpMsg s p st b) ++ '\n' :: lowerStr (safeString b) := by
      simp [lowerStr, List.map_append, List.map_cons, hnl]
    rw [heq]
    exact hb.trans ((List.suffix_cons '\n' _).trans
      (List.suffix_append _ _)).isInfix
  have hne : isNoCreditsError (mkHttpErr s p st b) = true := by
    unfold isNoCreditsError
    simp only [mkHttpErr, JsError.message, JsError.body, JsError.status, safeStringOpt]
    rw [hchain]
    rcases hs with rfl | rfl | rfl <;> simp
  have hstat : JsError.status (mkHttpErr s p st b) = some s := rfl
  have hcls : classifySendError (mkHttpErr s p st b) = TurnKind.errorNoCredits := by
    rcases hs with rfl | rfl | rfl <;> simp [classifySendError, hstat, hne]
  exact ⟨hne, hcls, by rw [hcls]; decide⟩

/-- C4 witness: the classification at a concrete 400 response whose JSON
body carries the billing message. -/
theorem claim_C4_witness :
    isNoCreditsError (mkHttpErr 400 (lit "/api/claude") (lit "Bad Request") c4body) = true ∧
    classifySendError (mkHttpErr 400 (lit "/api/claude") (lit "Bad Request") c4body)
      = TurnKind.errorNoCredits := by
  have h := claim_C4_no_credits_classification 400 (lit "/api/claude")
    (lit "Bad Request") c4body (Or.inl rfl) (by decide)
  exact ⟨h.1, h.2.1⟩

/-- C8 counterexample: no single extraction path performs the claimed
three-step check.  The extraction actually wired into `send`
(`pickAnswerFromBody`) does not concatenate content blocks — on a
content-blocks body it returns the JSON stringification of the array
instead of the blocks' text — while the variant extractor
(`extractClaudeText`) performs the blocks step but never stringifies the
whole body (an unrecognized body yields `""`, not its stringification). -/
theorem claim_C8_counterexample :
    extractClaudeText c8blocksBody = lit "Hello" ∧
    pickAnswerFromBody c8blocksBody ≠ lit "Hello" ∧
    extractClaudeText c8plainBody = [] ∧
    pickAnswerFromBody c8plainBody ≠ [] := by
  exact ⟨by decide, by decide, by decide, by decide⟩

/-- C8 (amended): the extraction is total and never throws.  The shipped
extractor `pickAnswerFromBody` maps null to `""` and a string body to
itself; on an object it returns the first candidate flat field
(`answer` first) whose normalization is non-empty, and only when every
candidate normalizes to empty does it fall back to the stringified whole
body.  The caller replaces an extraction that normalizes to empty with the
literal fallback "No answer returned from server.", so the rendered text is
never empty.  The variant extractor `extractClaudeText` yields `""` when no
content array and no flat `text`/`output_text` field is present. -/
theorem claim_C8_extraction_order :
    pickAnswerFromBody JsVal.vnull = [] ∧
    (∀ s, pickAnswerFromBody (.vstr s) = s) ∧
    (∀ o : JsObj, (∀ c ∈ pickCandidates (.vobj o), normalizeWsOpt c = []) →
      pickAnswerFromBody (.vobj o) = normalizeWs (.vobj o)) ∧
    (∀ (o : JsObj) (v : JsVal), JsObj.get o (lit "answer") = some v →
      normalizeWs v ≠ [] → pickAnswerFromBody (.vobj o) = normalizeWs v) ∧
    (∀ b, sendFinalText b ≠ []) ∧
    (∀ b, normalizeWsStr (pickAnswerFromBody b) = [] →
      sendFinalText b = lit "No answer returned from server.") ∧
    (∀ o : JsObj, JsObj.get o (lit "content") = none →
      JsObj.get o (lit "text") = none → JsObj.get o (lit "output_text") = none →
      extractClaudeText (.vobj o) = []) := by
  refine ⟨rfl, fun s => rfl, ?_, ?_, ?_, ?_, ?_⟩
  · intro o h
    show pickFromFields (.vobj o) = normalizeWs (.vobj o)
    unfold pickFromFields
    rw [List.find?_eq_none.mpr ?_]
    · rfl
    · intro x hx
      obtain ⟨c, hc, rfl⟩ := List.mem_map.mp hx
      rw [h c hc]
      decide
  · intro o v hv hnv
    show pickFromFields (.vobj o) = normalizeWs v
    have hget : JsVal.get (.vobj o) (lit "answer") = some v := hv
    unfold pickFromFields pickCandidates
    rw [hget]
    simp only [List.map_cons]
    rw [List.find?_cons_of_pos]
    · rfl
    · show (!(normalizeWsOpt (some v)).isEmpty) = true
      simp only [normalizeWsOpt]
      cases hn : normalizeWs v with
      | nil => exact absurd hn hnv
      | cons hd tl => rfl
  · intro b
    show (if normalizeWsStr (pickAnswerFromBody b) = []
      then lit "No answer returned from server."
      else normalizeWsStr (pickAnswerFromBody b)) ≠ []
    split_ifs with h
    · decide
    · exact h
  · intro b h
    unfold sendFinalText
    rw [if_pos h]
  · intro o h1 h2 h3
    have hc : JsVal.get (.vobj o) (lit "content") = none := h1
    have ht : JsVal.get (.vobj o) (lit "text") = none := h2
    have ho : JsVal.get (.vobj o) (lit "output_text") = none := h3
    unfold extractClaudeText
    rw [hc]
    unfold extractFlatText
    rw [ht, ho]
    rfl

/-- C8 witness: the `answer`-field-first property at a concrete body. -/
theorem claim_C8_witness :
    pickAnswerFromBody (.vobj (.cons (lit "answer") (.vstr (lit "Hi there")) .nil))
      = normalizeWs (.vstr (lit "Hi there")) :=
  claim_C8_extraction_order.2.2.2.1
    (.cons (lit "answer") (.vstr (lit "Hi there")) .nil)
    (.vstr (lit "Hi there")) rfl (by decide)
